import Mathlib

/-!
Shallow embedding of the synthetic-series generators, the row filter and the
spreadsheet adapters of the Kurdistan Cities Climate Dashboard (src/main.py;
src/6-dec.py contains byte-identical copies of the five generators).

Conventions of the embedding:
* a city is an element of the inductive type `City` (the five hardcoded names);
* years and months are natural numbers, exactly as the Python loops range over
  `range(1950, 2024)` and `range(1, 13)`;
* every `np.random.normal(...)` draw is an explicit parameter of the row
  function, so a theorem quantifying over the draw covers every outcome;
* numeric values are rationals, except the temperature family which needs
  `Real.cos` and therefore lives in the reals;
* each `load_*_data` body computes one row per (year, month, city); the
  embedding gives that per-row computation, which determines every row of the
  generated table.
-/

inductive City where
  | hewler
  | dihok
  | silemani
  | helebce
  | kerkuk
deriving DecidableEq

/-- `calendar.month_name[month]`, for the in-range months the code uses. -/
def monthName : ℕ → String
  | 1 => "January"
  | 2 => "February"
  | 3 => "March"
  | 4 => "April"
  | 5 => "May"
  | 6 => "June"
  | 7 => "July"
  | 8 => "August"
  | 9 => "September"
  | 10 => "October"
  | 11 => "November"
  | 12 => "December"
  | _ => ""

/-- The Season column, identical in every generator in the source. -/
def seasonOf (month : ℕ) : String :=
  if month ∈ [12, 1, 2] then "Winter"
  else if month ∈ [3, 4, 5] then "Spring"
  else if month ∈ [6, 7, 8] then "Summer"
  else "Autumn"

/-! ## Temperature family (`load_temperature_data`) -/

/-- `baselines[city]['temp']` in `load_temperature_data`. -/
def tempBaseline : City → ℝ
  | City.hewler => 33
  | City.dihok => 31
  | City.silemani => 30
  | City.helebce => 29
  | City.kerkuk => 34

/-- `baselines[city]['seasonal_var']` in `load_temperature_data`. -/
def tempSeasonalVar : City → ℝ
  | City.hewler => 15
  | City.dihok => 14
  | City.silemani => 13
  | City.helebce => 13
  | City.kerkuk => 16

/-- `season_effect = -seasonal_var * np.cos(2 * np.pi * (month - 1) / 12)`. -/
noncomputable def seasonEffect (c : City) (month : ℕ) : ℝ :=
  -(tempSeasonalVar c) * Real.cos (2 * Real.pi * ((month : ℝ) - 1) / 12)

/-- The temperature trend: `0.01*(year-1950)` before 1980, else
`0.3 + 0.03*(year-1980)`. -/
def tempTrend (year : ℕ) : ℝ :=
  if year < 1980 then 0.01 * ((year : ℝ) - 1950)
  else 0.3 + 0.03 * ((year : ℝ) - 1980)

/-- The pre-1980 branch of the temperature trend, as a total function. -/
def tempTrendPre (year : ℕ) : ℝ := 0.01 * ((year : ℝ) - 1950)

/-- The post-1980 branch of the temperature trend, as a total function. -/
def tempTrendPost (year : ℕ) : ℝ := 0.3 + 0.03 * ((year : ℝ) - 1980)

structure TempRow where
  Year : ℕ
  Month : ℕ
  MonthName : String
  City : City
  Temperature : ℝ
  ExtremeHeatDay : Prop
  Season : String

/-- One row of `load_temperature_data`.  `g1` is the `np.random.normal(0, 0.5)`
draw added to the temperature, `g2` the independent `np.random.normal(0, 2)`
draw used for the extreme-heat flag. -/
noncomputable def tempRow (c : City) (year month : ℕ) (g1 g2 : ℝ) : TempRow :=
  let temp := tempBaseline c + seasonEffect c month + tempTrend year + g1
  let extreme_temp := temp + g2
  { Year := year
    Month := month
    MonthName := monthName month
    City := c
    Temperature := temp
    ExtremeHeatDay := extreme_temp > 40
    Season := seasonOf month }

/-! ## Rainfall family (`load_rainfall_data`) -/

/-- `baselines[city]['rain']` in `load_rainfall_data`. -/
def rainBaseline : City → ℚ
  | City.hewler => 400
  | City.dihok => 550
  | City.silemani => 650
  | City.helebce => 700
  | City.kerkuk => 350

/-- `baselines[city]['seasonal_var']` in `load_rainfall_data` (the sigma of the
multiplicative `np.random.normal(1, seasonal_var)` draw). -/
def rainSeasonalVar : City → ℚ
  | City.hewler => 0.8
  | City.dihok => 0.7
  | City.silemani => 0.6
  | City.helebce => 0.6
  | City.kerkuk => 0.9

/-- The categorical season factor of the rainfall generator. -/
def rainSeasonFactor (month : ℕ) : ℚ :=
  if month ∈ [12, 1, 2, 3] then 2.0
  else if month ∈ [4, 5] then 1.5
  else if month ∈ [6, 7, 8] then 0.2
  else 1.0

/-- The rainfall trend: `1.0` before 1980, else `1.0 - 0.005*(year-1980)`. -/
def rainTrend (year : ℕ) : ℚ :=
  if year < 1980 then 1.0 else 1.0 - 0.005 * ((year : ℚ) - 1980)

/-- The pre-1980 branch of the rainfall trend, as a total function. -/
def rainTrendPre (_year : ℕ) : ℚ := 1.0

/-- The post-1980 branch of the rainfall trend, as a total function. -/
def rainTrendPost (year : ℕ) : ℚ := 1.0 - 0.005 * ((year : ℚ) - 1980)

/-- `monthly_rain = (baseline/12) * season_factor * trend * np.random.normal(1,
seasonal_var)`; `g` stands for the draw. -/
def monthlyRain (c : City) (year month : ℕ) (g : ℚ) : ℚ :=
  (rainBaseline c / 12) * rainSeasonFactor month * rainTrend year * g

structure RainRow where
  Year : ℕ
  Month : ℕ
  MonthName : String
  City : City
  Rainfall : ℚ
  DroughtRisk : ℕ
  Season : String

/-- One row of `load_rainfall_data`; `g` is the `np.random.normal(1,
seasonal_var)` draw. -/
def rainRow (c : City) (year month : ℕ) (g : ℚ) : RainRow :=
  let monthly_rain := monthlyRain c year month g
  { Year := year
    Month := month
    MonthName := monthName month
    City := c
    Rainfall := max 0 monthly_rain
    DroughtRisk := if monthly_rain < (rainBaseline c / 12) * 0.5 then 1 else 0
    Season := seasonOf month }

/-! ## Water-resources family (`load_water_resources_data`) -/

/-- `river_baselines[city]` in `load_water_resources_data`. -/
def riverBaseline : City → ℚ
  | City.hewler => 100
  | City.dihok => 150
  | City.silemani => 120
  | City.helebce => 90
  | City.kerkuk => 80

/-- `groundwater_baselines[city]` in `load_water_resources_data`. -/
def groundwaterBaseline : City → ℚ
  | City.hewler => 50
  | City.dihok => 45
  | City.silemani => 55
  | City.helebce => 60
  | City.kerkuk => 40

/-- The categorical season factor of the water generator: spring high, summer
low, otherwise normal. -/
def waterSeasonFactor (month : ℕ) : ℚ :=
  if month ∈ [3, 4, 5] then 1.2
  else if month ∈ [6, 7, 8] then 0.8
  else 1.0

/-- The water trend: `1.0` before 1980, else `1.0 - 0.008*(year-1980)`. -/
def waterTrend (year : ℕ) : ℚ :=
  if year < 1980 then 1.0 else 1.0 - 0.008 * ((year : ℚ) - 1980)

/-- The pre-1980 branch of the water trend, as a total function. -/
def waterTrendPre (_year : ℕ) : ℚ := 1.0

/-- The post-1980 branch of the water trend, as a total function. -/
def waterTrendPost (year : ℕ) : ℚ := 1.0 - 0.008 * ((year : ℚ) - 1980)

/-- `river_level = river_baselines[city] * season_factor * trend +
np.random.normal(0, 5)`; `g` stands for the draw. -/
def riverLevelVal (c : City) (year month : ℕ) (g : ℚ) : ℚ :=
  riverBaseline c * waterSeasonFactor month * waterTrend year + g

/-- `groundwater = groundwater_baselines[city] * trend + np.random.normal(0,
2)`; `g` stands for the draw. -/
def groundwaterVal (c : City) (year : ℕ) (g : ℚ) : ℚ :=
  groundwaterBaseline c * waterTrend year + g

structure WaterRow where
  Year : ℕ
  Month : ℕ
  MonthName : String
  City : City
  RiverLevel : ℚ
  GroundwaterLevel : ℚ
  WaterStress : ℕ
  Season : String

/-- One row of `load_water_resources_data`; `g1` is the river-level noise draw,
`g2` the groundwater noise draw. -/
def waterRow (c : City) (year month : ℕ) (g1 g2 : ℚ) : WaterRow :=
  let river_level := riverLevelVal c year month g1
  let groundwater := groundwaterVal c year g2
  { Year := year
    Month := month
    MonthName := monthName month
    City := c
    RiverLevel := max 0 river_level
    GroundwaterLevel := max 0 groundwater
    WaterStress :=
      if river_level < riverBaseline c * 0.7 ∧
          groundwater < groundwaterBaseline c * 0.7 then 1 else 0
    Season := seasonOf month }

/-! ## Economic family (`load_economic_impact_data`) — yearly granularity -/

/-- `baselines[city]['energy']` in `load_economic_impact_data`. -/
def energyBaseline : City → ℚ
  | City.hewler => 1000
  | City.dihok => 800
  | City.silemani => 900
  | City.helebce => 700
  | City.kerkuk => 1100

/-- `baselines[city]['agri']` in `load_economic_impact_data`. -/
def agriBaseline : City → ℚ
  | City.hewler => 800
  | City.dihok => 1000
  | City.silemani => 1100
  | City.helebce => 900
  | City.kerkuk => 700

/-- The energy-demand trend: `1.0` before 1980, else `1.0 + 0.02*(year-1980)`. -/
def energyTrend (year : ℕ) : ℚ :=
  if year < 1980 then 1.0 else 1.0 + 0.02 * ((year : ℚ) - 1980)

/-- The pre-1980 branch of the energy trend, as a total function. -/
def energyTrendPre (_year : ℕ) : ℚ := 1.0

/-- The post-1980 branch of the energy trend, as a total function. -/
def energyTrendPost (year : ℕ) : ℚ := 1.0 + 0.02 * ((year : ℚ) - 1980)

/-- The agricultural trend: `1.0` before 1980, else `1.0 - 0.005*(year-1980)`. -/
def agriTrend (year : ℕ) : ℚ :=
  if year < 1980 then 1.0 else 1.0 - 0.005 * ((year : ℚ) - 1980)

/-- The pre-1980 branch of the agricultural trend, as a total function. -/
def agriTrendPre (_year : ℕ) : ℚ := 1.0

/-- The post-1980 branch of the agricultural trend, as a total function. -/
def agriTrendPost (year : ℕ) : ℚ := 1.0 - 0.005 * ((year : ℚ) - 1980)

structure EconRow where
  Year : ℕ
  City : City
  EnergyDemand : ℚ
  AgriculturalProduction : ℚ

/-- One row of `load_economic_impact_data`; `g1` is the `np.random.normal(0,
20)` draw on energy demand, `g2` the `np.random.normal(0, 30)` draw on
agricultural production. -/
def econRow (c : City) (year : ℕ) (g1 g2 : ℚ) : EconRow :=
  let energy_demand := energyBaseline c * energyTrend year + g1
  let agri_production := agriBaseline c * agriTrend year + g2
  { Year := year
    City := c
    EnergyDemand := max 0 energy_demand
    AgriculturalProduction := max 0 agri_production }

/-! ## Health family (`load_health_impact_data`) -/

/-- `baselines[city]['heat_stress']` in `load_health_impact_data`. -/
def heatStressBaseline : City → ℚ
  | City.hewler => 30
  | City.dihok => 25
  | City.silemani => 20
  | City.helebce => 20
  | City.kerkuk => 35

/-- `baselines[city]['air_health']` in `load_health_impact_data`. -/
def airHealthBaseline : City → ℚ
  | City.hewler => 80
  | City.dihok => 85
  | City.silemani => 90
  | City.helebce => 90
  | City.kerkuk => 75

/-- The categorical season factor of the health generator: summer high, winter
low, otherwise normal. -/
def healthSeasonFactor (month : ℕ) : ℚ :=
  if month ∈ [6, 7, 8] then 1.5
  else if month ∈ [12, 1, 2] then 0.7
  else 1.0

/-- The health trend: `1.0` before 1980, else `1.0 + 0.01*(year-1980)`. -/
def healthTrend (year : ℕ) : ℚ :=
  if year < 1980 then 1.0 else 1.0 + 0.01 * ((year : ℚ) - 1980)

/-- The pre-1980 branch of the health trend, as a total function. -/
def healthTrendPre (_year : ℕ) : ℚ := 1.0

/-- The post-1980 branch of the health trend, as a total function. -/
def healthTrendPost (year : ℕ) : ℚ := 1.0 + 0.01 * ((year : ℚ) - 1980)

/-- `heat_stress = baselines[city]['heat_stress'] * season_factor * trend +
np.random.normal(0, 2)`; `g` stands for the draw. -/
def heatStressVal (c : City) (year month : ℕ) (g : ℚ) : ℚ :=
  heatStressBaseline c * healthSeasonFactor month * healthTrend year + g

/-- `air_health = baselines[city]['air_health'] * (2 - trend) +
np.random.normal(0, 2)`; `g` stands for the draw. -/
def airHealthVal (c : City) (year : ℕ) (g : ℚ) : ℚ :=
  airHealthBaseline c * (2 - healthTrend year) + g

structure HealthRow where
  Year : ℕ
  Month : ℕ
  MonthName : String
  City : City
  HeatStressIndex : ℚ
  AirHealthIndex : ℚ
  Season : String

/-- One row of `load_health_impact_data`; `g1` is the heat-stress noise draw,
`g2` the air-health noise draw. -/
def healthRow (c : City) (year month : ℕ) (g1 g2 : ℚ) : HealthRow :=
  let heat_stress := heatStressVal c year month g1
  let air_health := airHealthVal c year g2
  { Year := year
    Month := month
    MonthName := monthName month
    City := c
    HeatStressIndex := max 0 heat_stress
    AirHealthIndex := max 0 (min 100 air_health)
    Season := seasonOf month }

/-! ## The sidebar filter (`filter_data`)

`filter_data` receives a pandas DataFrame and keeps the rows inside the
selected year range whose City is in the selected set, then — depending on the
time frame and on which columns the frame has — further restricts by month
name or by season.  The embedding models a frame as its column-name list plus
a list of rows carrying the fields `filter_data` reads; boolean-mask filtering
on a DataFrame keeps the column schema untouched, which the embedding renders
by passing `cols` through unchanged. -/

structure FRow where
  Year : ℤ
  MonthName : String
  City : City
  Season : String

structure FTable where
  cols : List String
  rows : List FRow

/-- `filter_data(df)` with its free variables (`start_year`, `end_year`,
`selected_cities`, `time_frame`, `months`, `seasons`) made explicit
parameters. -/
def filterData (df : FTable) (start_year end_year : ℤ) (selected_cities : List City)
    (time_frame : String) (months seasons : List String) : FTable :=
  let filtered := df.rows.filter fun r =>
    decide (start_year ≤ r.Year) && decide (r.Year ≤ end_year) &&
      decide (r.City ∈ selected_cities)
  let filtered2 :=
    if time_frame = "Monthly" ∧ "Month" ∈ df.cols then
      filtered.filter fun r => decide (r.MonthName ∈ months)
    else if time_frame = "Seasonal" ∧ "Season" ∈ df.cols then
      filtered.filter fun r => decide (r.Season ∈ seasons)
    else filtered
  { cols := df.cols, rows := filtered2 }

/-! ## Spreadsheet adapters (`load_waste_data` and friends)

Each adapter wraps a `pd.read_excel` call in `try/except`; on any exception it
calls `st.error(...)` (the non-fatal user-visible channel) and returns a
fallback DataFrame.  The embedding feeds the outcome of the read as an
`Except String STable` value: `Except.error` is any read/parse failure,
`Except.ok` a successfully parsed sheet.  A raised `ValueError` inside the
`try` block (missing/misnamed columns) lands in the same `except` branch.
`reported` records whether `st.error` was called; that every adapter is a
total Lean function returning a table is the embedding of "the exception
never propagates to the caller". -/

inductive Cell where
  | str : String → Cell
  | num : ℚ → Cell
  | na : Cell
deriving DecidableEq

structure STable where
  cols : List String
  rows : List (List Cell)
deriving DecidableEq

structure AdapterResult where
  table : STable
  reported : Bool
deriving DecidableEq

/-- `df.columns.str.strip()`. -/
def stripCols (t : STable) : STable :=
  { cols := t.cols.map (fun s => s.trim), rows := t.rows }

/-- `pd.to_numeric(cell, errors="coerce")`: a numeric cell stays, anything
else becomes missing. -/
def coerceNum : Cell → Cell
  | Cell.num x => Cell.num x
  | _ => Cell.na

/-- Apply the numeric coercion to the cell at column index `i` of a row. -/
def coerceAt (i : ℕ) (row : List Cell) : List Cell :=
  row.set i (coerceNum (row.getD i Cell.na))

/-- Whether a row contains a missing value (what `dropna()` removes). -/
def hasNa (row : List Cell) : Bool :=
  row.any fun c => match c with
    | Cell.na => true
    | _ => false

/-- `load_waste_data`: strip column names, require `Type` and `Percentage`,
coerce `Percentage` to numeric, drop rows with missing values; on any failure
return the `{'Type': [], 'Percentage': []}` placeholder and report. -/
def loadWasteData (read : Except String STable) : AdapterResult :=
  match read with
  | Except.error _ => { table := { cols := ["Type", "Percentage"], rows := [] }, reported := true }
  | Except.ok t =>
    let t := stripCols t
    if "Type" ∈ t.cols ∧ "Percentage" ∈ t.cols then
      let i := t.cols.indexOf "Percentage"
      { table := { cols := t.cols
                   rows := (t.rows.map (coerceAt i)).filter fun r => !(hasNa r) }
        reported := false }
    else { table := { cols := ["Type", "Percentage"], rows := [] }, reported := true }

/-- `load_waste_forecast_data`: strip column names, require `Year` and
`Total Waste Generation (ton/d)`; on any failure return the two-column
placeholder and report. -/
def loadWasteForecastData (read : Except String STable) : AdapterResult :=
  match read with
  | Except.error _ =>
    { table := { cols := ["Year", "Total Waste Generation (ton/d)"], rows := [] }
      reported := true }
  | Except.ok t =>
    let t := stripCols t
    if ∀ c ∈ ["Year", "Total Waste Generation (ton/d)"], c ∈ t.cols then
      { table := t, reported := false }
    else
      { table := { cols := ["Year", "Total Waste Generation (ton/d)"], rows := [] }
        reported := true }

/-- `load_power_demand_data`: returns the sheet as read; on failure reports
and returns `pd.DataFrame()` — an empty frame with no columns at all. -/
def loadPowerDemandData (read : Except String STable) : AdapterResult :=
  match read with
  | Except.error _ => { table := { cols := [], rows := [] }, reported := true }
  | Except.ok t => { table := t, reported := false }

/-- `load_power_demand_forecast`: strips column names; on failure reports and
returns `pd.DataFrame()`. -/
def loadPowerDemandForecast (read : Except String STable) : AdapterResult :=
  match read with
  | Except.error _ => { table := { cols := [], rows := [] }, reported := true }
  | Except.ok t => { table := stripCols t, reported := false }

/-- `load_peak_power_data`: strips column names; on failure reports and
returns `pd.DataFrame()`. -/
def loadPeakPowerData (read : Except String STable) : AdapterResult :=
  match read with
  | Except.error _ => { table := { cols := [], rows := [] }, reported := true }
  | Except.ok t => { table := stripCols t, reported := false }

/-- `load_dams_ponds_data`: strips column names; on failure reports and
returns `pd.DataFrame()`. -/
def loadDamsPondsData (read : Except String STable) : AdapterResult :=
  match read with
  | Except.error _ => { table := { cols := [], rows := [] }, reported := true }
  | Except.ok t => { table := stripCols t, reported := false }

/-- `load_planning_dams_data`: strips column names; on failure reports and
returns `pd.DataFrame()`. -/
def loadPlanningDamsData (read : Except String STable) : AdapterResult :=
  match read with
  | Except.error _ => { table := { cols := [], rows := [] }, reported := true }
  | Except.ok t => { table := stripCols t, reported := false }

/-- The shape the spec claims for every adapter on failure: a nonempty
expected column schema, and on every failure an empty table carrying exactly
that schema, with the failure reported. -/
def SchemaConsistentOnFailure (f : Except String STable → AdapterResult)
    (schema : List String) : Prop :=
  schema ≠ [] ∧ ∀ e : String,
    f (Except.error e) = { table := { cols := schema, rows := [] }, reported := true }

/-- The additive shape the spec's generator contract asserts for every family:
some per-entity baseline plus some per-month seasonal term plus some per-year
trend term, the noise entering additively on top.  A family whose
deterministic part (noise draw fixed at its mean) admits no such decomposition
cannot have the asserted shape.  Written from the spec's words, to be compared
with the generators defined from the source. -/
def AdditiveDet (v : City → ℕ → ℕ → ℚ) : Prop :=
  ∃ b : City → ℚ, ∃ s : ℕ → City → ℚ, ∃ t : ℕ → ℚ,
    ∀ (c : City) (year month : ℕ), v c year month = b c + s month c + t year

/-! ## Helper lemmas -/

lemma clamp_lt_iff {x t : ℚ} (ht : 0 < t) : max 0 x < t ↔ x < t := by
  rw [max_lt_iff]
  exact and_iff_right ht

lemma rainRow_Rainfall (c : City) (year month : ℕ) (g : ℚ) :
    (rainRow c year month g).Rainfall = max 0 (monthlyRain c year month g) := rfl

lemma rainRow_DroughtRisk (c : City) (year month : ℕ) (g : ℚ) :
    (rainRow c year month g).DroughtRisk
      = if monthlyRain c year month g < (rainBaseline c / 12) * 0.5 then 1 else 0 := rfl

lemma waterRow_RiverLevel (c : City) (year month : ℕ) (g1 g2 : ℚ) :
    (waterRow c year month g1 g2).RiverLevel = max 0 (riverLevelVal c year month g1) := rfl

lemma waterRow_GroundwaterLevel (c : City) (year month : ℕ) (g1 g2 : ℚ) :
    (waterRow c year month g1 g2).GroundwaterLevel = max 0 (groundwaterVal c year g2) := rfl

lemma waterRow_WaterStress (c : City) (year month : ℕ) (g1 g2 : ℚ) :
    (waterRow c year month g1 g2).WaterStress
      = if riverLevelVal c year month g1 < riverBaseline c * 0.7 ∧
            groundwaterVal c year g2 < groundwaterBaseline c * 0.7 then 1 else 0 := rfl

lemma healthRow_HeatStressIndex (c : City) (year month : ℕ) (g1 g2 : ℚ) :
    (healthRow c year month g1 g2).HeatStressIndex = max 0 (heatStressVal c year month g1) := rfl

lemma healthRow_AirHealthIndex (c : City) (year month : ℕ) (g1 g2 : ℚ) :
    (healthRow c year month g1 g2).AirHealthIndex
      = max 0 (min 100 (airHealthVal c year g2)) := rfl

lemma rainBaseline_threshold_pos (c : City) : 0 < (rainBaseline c / 12) * 0.5 := by
  cases c <;> norm_num [rainBaseline]

lemma riverBaseline_threshold_pos (c : City) : 0 < riverBaseline c * 0.7 := by
  cases c <;> norm_num [riverBaseline]

lemma groundwaterBaseline_threshold_pos (c : City) : 0 < groundwaterBaseline c * 0.7 := by
  cases c <;> norm_num [groundwaterBaseline]

/-- The drought flag, computed in the source from the pre-clamp noisy value,
agrees with the same comparison on the stored (clamped) Rainfall value. -/
lemma droughtRisk_iff_stored (c : City) (year month : ℕ) (g : ℚ) :
    (rainRow c year month g).DroughtRisk = 1 ↔
      (rainRow c year month g).Rainfall < (rainBaseline c / 12) * 0.5 := by
  rw [rainRow_DroughtRisk, rainRow_Rainfall, clamp_lt_iff (rainBaseline_threshold_pos c)]
  split_ifs with h
  · simp [h]
  · simp [h]

/-- The water-stress flag, computed in the source from the pre-clamp noisy
values, agrees with the same pair of comparisons on the stored values. -/
lemma waterStress_iff_stored (c : City) (year month : ℕ) (g1 g2 : ℚ) :
    (waterRow c year month g1 g2).WaterStress = 1 ↔
      ((waterRow c year month g1 g2).RiverLevel < riverBaseline c * 0.7 ∧
       (waterRow c year month g1 g2).GroundwaterLevel < groundwaterBaseline c * 0.7) := by
  rw [waterRow_WaterStress, waterRow_RiverLevel, waterRow_GroundwaterLevel,
    clamp_lt_iff (riverBaseline_threshold_pos c),
    clamp_lt_iff (groundwaterBaseline_threshold_pos c)]
  split_ifs with h
  · simp [h]
  · simp [h]

/-! ## Claims -/

/-- Claim C2 (confirmed): in every generated row, whatever the noise draws,
the stored Rainfall, RiverLevel, GroundwaterLevel, EnergyDemand and
AgriculturalProduction values are nonnegative, because each is clamped with
`max(0, ...)` after noise injection. -/
theorem C2_nonneg_clamped :
    ∀ (c : City) (year month : ℕ) (g g1 g2 : ℚ),
      0 ≤ (rainRow c year month g).Rainfall ∧
      0 ≤ (waterRow c year month g1 g2).RiverLevel ∧
      0 ≤ (waterRow c year month g1 g2).GroundwaterLevel ∧
      0 ≤ (econRow c year g1 g2).EnergyDemand ∧
      0 ≤ (econRow c year g1 g2).AgriculturalProduction := by
  intro c year month g g1 g2
  exact ⟨le_max_left 0 _, le_max_left 0 _, le_max_left 0 _, le_max_left 0 _, le_max_left 0 _⟩

/-- Claim C5 (confirmed): with the noise draws forced to zero, the temperature
generator yields exactly 18.0 for Hewlêr in year 1950 month 1 and exactly 48.9
for Hewlêr in year 2000 month 7. -/
theorem C5_temperature_scenarios :
    (tempRow City.hewler 1950 1 0 0).Temperature = 18.0 ∧
    (tempRow City.hewler 2000 7 0 0).Temperature = 48.9 := by
  have harg1 : 2 * Real.pi * (((1 : ℕ) : ℝ) - 1) / 12 = 0 := by norm_num
  have harg7 : 2 * Real.pi * (((7 : ℕ) : ℝ) - 1) / 12 = Real.pi := by
    push_cast
    ring
  have hs1 : seasonEffect City.hewler 1 = -15 := by
    rw [seasonEffect, harg1, Real.cos_zero]
    norm_num [tempSeasonalVar]
  have hs7 : seasonEffect City.hewler 7 = 15 := by
    rw [seasonEffect, harg7, Real.cos_pi]
    norm_num [tempSeasonalVar]
  constructor
  · show tempBaseline City.hewler + seasonEffect City.hewler 1 + tempTrend 1950 + 0 = 18.0
    rw [hs1]
    norm_num [tempBaseline, tempTrend]
  · show tempBaseline City.hewler + seasonEffect City.hewler 7 + tempTrend 2000 + 0 = 48.9
    rw [hs7]
    norm_num [tempBaseline, tempTrend]

/-- Claim C6 (confirmed): for every indicator family with the two-segment
trend broken at 1980, evaluating the pre-1980 branch at 1980 gives the same
value as the post-1980 branch at 1980 (and both equal the trend itself there):
the trend is continuous at the breakpoint. -/
theorem C6_trend_continuity :
    (tempTrendPre 1980 = tempTrend 1980 ∧ tempTrendPost 1980 = tempTrend 1980) ∧
    (rainTrendPre 1980 = rainTrend 1980 ∧ rainTrendPost 1980 = rainTrend 1980) ∧
    (waterTrendPre 1980 = waterTrend 1980 ∧ waterTrendPost 1980 = waterTrend 1980) ∧
    (energyTrendPre 1980 = energyTrend 1980 ∧ energyTrendPost 1980 = energyTrend 1980) ∧
    (agriTrendPre 1980 = agriTrend 1980 ∧ agriTrendPost 1980 = agriTrend 1980) ∧
    (healthTrendPre 1980 = healthTrend 1980 ∧ healthTrendPost 1980 = healthTrend 1980) := by
  norm_num [tempTrendPre, tempTrendPost, tempTrend, rainTrendPre, rainTrendPost, rainTrend,
    waterTrendPre, waterTrendPost, waterTrend, energyTrendPre, energyTrendPost, energyTrend,
    agriTrendPre, agriTrendPost, agriTrend, healthTrendPre, healthTrendPost, healthTrend]

/-- Claim C3 (refuted as stated): the claim puts the drought threshold at 50%
of `baseline/12 × seasonal factor`.  For Hewlêr in January 1950 with noise
draw 3/8 the stored rainfall is 25, below 50% of the claimed seasonal baseline
`(400/12)·2`, yet the source compares against `(400/12)·0.5` and stores flag
0. -/
theorem C3_counterexample :
    (rainRow City.hewler 1950 1 (3 / 8)).DroughtRisk = 0 ∧
    (rainRow City.hewler 1950 1 (3 / 8)).Rainfall
      < 0.5 * (rainBaseline City.hewler / 12 * rainSeasonFactor 1) := by
  rw [rainRow_DroughtRisk, rainRow_Rainfall]
  norm_num [monthlyRain, rainBaseline, rainSeasonFactor, rainTrend]

/-- Claim C3 (amended): the drought-risk flag is 1 exactly when the monthly
rainfall falls below 50% of the entity's uniform monthly baseline
`baseline/12`, the seasonal factor not entering the threshold. -/
theorem C3_amended_drought_threshold :
    ∀ (c : City) (year month : ℕ) (g : ℚ),
      ((rainRow c year month g).DroughtRisk = 1 ↔
        (rainRow c year month g).Rainfall < (rainBaseline c / 12) * 0.5) := by
  intro c year month g
  exact droughtRisk_iff_stored c year month g

/-- Claim C4 (confirmed): WaterStress is 1 exactly when both the stored
RiverLevel is below 70% of the river baseline and the stored GroundwaterLevel
is below 70% of the groundwater baseline of the same row — a logical AND. -/
theorem C4_water_stress_and :
    ∀ (c : City) (year month : ℕ) (g1 g2 : ℚ),
      ((waterRow c year month g1 g2).WaterStress = 1 ↔
        ((waterRow c year month g1 g2).RiverLevel < riverBaseline c * 0.7 ∧
         (waterRow c year month g1 g2).GroundwaterLevel < groundwaterBaseline c * 0.7)) := by
  intro c year month g1 g2
  exact waterStress_iff_stored c year month g1 g2

/-- Claim C10 (confirmed): for every generated rainfall and water row, the
stored flag equals the threshold predicate recomputed on the stored (clamped)
column values, because clamping a negative value to zero cannot cross the
strictly positive thresholds. -/
theorem C10_flags_from_stored :
    ∀ (c : City) (year month : ℕ) (g g1 g2 : ℚ),
      (rainRow c year month g).DroughtRisk
          = (if (rainRow c year month g).Rainfall < 0.5 * (rainBaseline c / 12)
             then 1 else 0) ∧
      (waterRow c year month g1 g2).WaterStress
          = (if (waterRow c year month g1 g2).RiverLevel < 0.7 * riverBaseline c ∧
                (waterRow c year month g1 g2).GroundwaterLevel < 0.7 * groundwaterBaseline c
             then 1 else 0) := by
  intro c year month g g1 g2
  constructor
  · have h := droughtRisk_iff_stored c year month g
    rw [mul_comm (0.5 : ℚ)]
    split_ifs with hc
    · exact h.mpr hc
    · rcases Nat.eq_zero_or_pos (rainRow c year month g).DroughtRisk with h0 | h1
      · exact h0
      · have : (rainRow c year month g).DroughtRisk = 1 := by
          rw [rainRow_DroughtRisk] at h1 ⊢
          split_ifs at h1 ⊢ with hi
          · rfl
          · exact absurd h1 (by norm_num)
        exact absurd (h.mp this) hc
  · have h := waterStress_iff_stored c year month g1 g2
    rw [mul_comm (0.7 : ℚ) (riverBaseline c), mul_comm (0.7 : ℚ) (groundwaterBaseline c)]
    split_ifs with hc
    · exact h.mpr hc
    · rcases Nat.eq_zero_or_pos (waterRow c year month g1 g2).WaterStress with h0 | h1
      · exact h0
      · have : (waterRow c year month g1 g2).WaterStress = 1 := by
          rw [waterRow_WaterStress] at h1 ⊢
          split_ifs at h1 ⊢ with hi
          · rfl
          · exact absurd h1 (by norm_num)
        exact absurd (h.mp this) hc

/-- Claim C7 (refuted as stated): the claim asserts both health indices are
clamped into [0, 100], but the source only applies `max(0, ...)` to the
heat-stress index; for Kerkûk in July 2023 with noise draw 200 the stored
HeatStressIndex is 275.075 > 100. -/
theorem C7_counterexample :
    ¬ (healthRow City.kerkuk 2023 7 200 0).HeatStressIndex ≤ 100 := by
  rw [not_le, healthRow_HeatStressIndex]
  have h : (100 : ℚ) < heatStressVal City.kerkuk 2023 7 200 := by
    norm_num [heatStressVal, heatStressBaseline, healthSeasonFactor, healthTrend]
  exact h.trans_le (le_max_right 0 _)

/-- Claim C7 (amended): in every generated health row, whatever the noise
draws, AirHealthIndex lies in [0, 100] (double-sided clamp) and
HeatStressIndex is at least 0 (lower clamp only; the source applies no upper
clamp to it). -/
theorem C7_amended_clamps :
    ∀ (c : City) (year month : ℕ) (g1 g2 : ℚ),
      0 ≤ (healthRow c year month g1 g2).AirHealthIndex ∧
      (healthRow c year month g1 g2).AirHealthIndex ≤ 100 ∧
      0 ≤ (healthRow c year month g1 g2).HeatStressIndex := by
  intro c year month g1 g2
  refine ⟨le_max_left 0 _, ?_, le_max_left 0 _⟩
  rw [healthRow_AirHealthIndex]
  exact max_le (by norm_num) (min_le_left _ _)

/-- Claim C1 (refuted as stated): the water-resources and rainfall families
admit no additive decomposition baseline + seasonal term + trend (+ noise).
With the noise draw fixed at its mean, the Hewlêr river level at
(1950, Jan), (1950, Apr), (2023, Jan), (2023, Apr) takes the values 100, 120,
65.6, 78.72; an additive decomposition would force
100 + 78.72 = 120 + 65.6, which is false.  The rainfall family fails the same
rectangle test at months January/June. -/
theorem C1_counterexample :
    ¬ AdditiveDet (fun c year month => riverLevelVal c year month 0) ∧
    ¬ AdditiveDet (fun c year month => monthlyRain c year month 1) := by
  constructor
  · rintro ⟨b, s, t, h⟩
    have h11 := h City.hewler 1950 1
    have h14 := h City.hewler 1950 4
    have h21 := h City.hewler 2023 1
    have h24 := h City.hewler 2023 4
    norm_num [riverLevelVal, riverBaseline, waterSeasonFactor, waterTrend] at h11 h14 h21 h24
    linarith
  · rintro ⟨b, s, t, h⟩
    have h11 := h City.hewler 1950 1
    have h16 := h City.hewler 1950 6
    have h21 := h City.hewler 2023 1
    have h26 := h City.hewler 2023 6
    norm_num [monthlyRain, rainBaseline, rainSeasonFactor, rainTrend] at h11 h16 h21 h26
    linarith

/-- Claim C1 (amended): only the temperature family is additive
(baseline + seasonal cosine term + trend + noise).  The rainfall,
water-resources, economic and health families combine baseline, seasonal
factor (where present) and trend multiplicatively, the noise entering
additively after the product — except rainfall, where the normal(1, σ) draw is
itself a multiplicative factor — before the family's clamp is applied. -/
theorem C1_amended_composition :
    (∀ (c : City) (year month : ℕ) (g1 g2 : ℝ),
        (tempRow c year month g1 g2).Temperature
          = tempBaseline c + seasonEffect c month + tempTrend year + g1) ∧
    (∀ (c : City) (year month : ℕ) (g : ℚ),
        (rainRow c year month g).Rainfall
          = max 0 ((rainBaseline c / 12) * rainSeasonFactor month * rainTrend year * g)) ∧
    (∀ (c : City) (year month : ℕ) (g1 g2 : ℚ),
        (waterRow c year month g1 g2).RiverLevel
          = max 0 (riverBaseline c * waterSeasonFactor month * waterTrend year + g1) ∧
        (waterRow c year month g1 g2).GroundwaterLevel
          = max 0 (groundwaterBaseline c * waterTrend year + g2)) ∧
    (∀ (c : City) (year : ℕ) (g1 g2 : ℚ),
        (econRow c year g1 g2).EnergyDemand
          = max 0 (energyBaseline c * energyTrend year + g1) ∧
        (econRow c year g1 g2).AgriculturalProduction
          = max 0 (agriBaseline c * agriTrend year + g2)) ∧
    (∀ (c : City) (year month : ℕ) (g1 g2 : ℚ),
        (healthRow c year month g1 g2).HeatStressIndex
          = max 0 (heatStressBaseline c * healthSeasonFactor month * healthTrend year + g1) ∧
        (healthRow c year month g1 g2).AirHealthIndex
          = max 0 (min 100 (airHealthBaseline c * (2 - healthTrend year) + g2))) :=
  ⟨fun _ _ _ _ _ => rfl, fun _ _ _ _ => rfl, fun _ _ _ _ _ => ⟨rfl, rfl⟩,
    fun _ _ _ _ => ⟨rfl, rfl⟩, fun _ _ _ _ _ => ⟨rfl, rfl⟩⟩

/-- Claim C8 (refuted as stated): the power-demand adapter (like the other
energy/water adapters) falls back to `pd.DataFrame()` — a frame with no
columns at all — so no nonempty expected schema makes its failure placeholder
schema-consistent. -/
theorem C8_counterexample :
    ¬ ∃ schema : List String, SchemaConsistentOnFailure loadPowerDemandData schema := by
  rintro ⟨schema, hne, h⟩
  exact hne (congrArg (fun r => r.table.cols) (h "boom")).symm

/-- Claim C8 (amended): every adapter reports a failed read through the
non-fatal error channel and returns a table instead of propagating: the two
waste adapters return their expected two-column schema with zero rows (also
when the sheet is read but the required columns are missing), while the
power-demand, power-forecast, peak-power, dams-ponds and planning-dams
adapters return a frame with no columns at all. -/
theorem C8_amended_failure_behavior :
    (∀ e : String,
      loadWasteData (Except.error e)
          = { table := { cols := ["Type", "Percentage"], rows := [] }, reported := true } ∧
      loadWasteForecastData (Except.error e)
          = { table := { cols := ["Year", "Total Waste Generation (ton/d)"], rows := [] },
              reported := true } ∧
      loadPowerDemandData (Except.error e)
          = { table := { cols := [], rows := [] }, reported := true } ∧
      loadPowerDemandForecast (Except.error e)
          = { table := { cols := [], rows := [] }, reported := true } ∧
      loadPeakPowerData (Except.error e)
          = { table := { cols := [], rows := [] }, reported := true } ∧
      loadDamsPondsData (Except.error e)
          = { table := { cols := [], rows := [] }, reported := true } ∧
      loadPlanningDamsData (Except.error e)
          = { table := { cols := [], rows := [] }, reported := true }) ∧
    (∀ t : STable, ¬ ("Type" ∈ (stripCols t).cols ∧ "Percentage" ∈ (stripCols t).cols) →
      loadWasteData (Except.ok t)
          = { table := { cols := ["Type", "Percentage"], rows := [] }, reported := true }) ∧
    (∀ t : STable,
      ¬ (∀ c ∈ ["Year", "Total Waste Generation (ton/d)"], c ∈ (stripCols t).cols) →
      loadWasteForecastData (Except.ok t)
          = { table := { cols := ["Year", "Total Waste Generation (ton/d)"], rows := [] },
              reported := true }) := by
  refine ⟨fun e => ⟨rfl, rfl, rfl, rfl, rfl, rfl, rfl⟩, fun t ht => ?_, fun t ht => ?_⟩
  · simp only [loadWasteData]
    rw [if_neg ht]
  · simp only [loadWasteForecastData]
    rw [if_neg ht]

theorem C8_amended_failure_behavior_witness :
    loadWasteData (Except.ok { cols := [], rows := [] })
        = { table := { cols := ["Type", "Percentage"], rows := [] }, reported := true } ∧
    loadWasteForecastData (Except.ok { cols := [], rows := [] })
        = { table := { cols := ["Year", "Total Waste Generation (ton/d)"], rows := [] },
            reported := true } :=
  ⟨C8_amended_failure_behavior.2.1 { cols := [], rows := [] } (by decide),
    C8_amended_failure_behavior.2.2 { cols := [], rows := [] } (by decide)⟩

/-- Claim C9 (confirmed): filtering any table with an empty selected-city set,
or with a degenerate year range, yields a table with zero rows and the input's
column schema unchanged, and raises nothing (the filter is a total
function). -/
theorem C9_empty_filter :
    ∀ (df : FTable) (start_year end_year : ℤ) (selected_cities : List City)
      (time_frame : String) (months seasons : List String),
      (selected_cities = [] ∨ end_year < start_year) →
      (filterData df start_year end_year selected_cities time_frame months seasons).rows = []
        ∧ (filterData df start_year end_year selected_cities time_frame months seasons).cols
            = df.cols := by
  intro df sy ey sel tf ms ss h
  have hfirst : (df.rows.filter fun r =>
      decide (sy ≤ r.Year) && decide (r.Year ≤ ey) && decide (r.City ∈ sel)) = [] := by
    rw [List.filter_eq_nil_iff]
    intro r _
    rcases h with h | h
    · subst h
      simp
    · simp only [Bool.and_eq_true, decide_eq_true_eq, not_and]
      rintro ⟨h1, h2⟩ _
      exact absurd (h1.trans h2) (not_le.mpr h)
  refine ⟨?_, rfl⟩
  simp only [filterData, hfirst]
  split_ifs <;> rfl

theorem C9_empty_filter_witness :
    (filterData
        { cols := ["Year", "City"],
          rows := [{ Year := 1950, MonthName := "January", City := City.hewler,
                     Season := "Winter" }] }
        1950 2023 [] "Yearly" [] []).rows = []
      ∧ (filterData
        { cols := ["Year", "City"],
          rows := [{ Year := 1950, MonthName := "January", City := City.hewler,
                     Season := "Winter" }] }
        1950 2023 [] "Yearly" [] []).cols = ["Year", "City"] :=
  C9_empty_filter
    { cols := ["Year", "City"],
      rows := [{ Year := 1950, MonthName := "January", City := City.hewler,
                 Season := "Winter" }] }
    1950 2023 [] "Yearly" [] [] (Or.inl rfl)
